import Mathlib

/-!
Verification of the `splat_derive` crate (src/lib.rs): a derive macro that
generates a `splat` method for structs whose fields all share one type.

The embedding mirrors the crate's input syntax (a `DeriveInput` as supplied
by `syn`), its two functions `derive_splat` and `get_shared_type`, and the
token fragment produced by the `quote!` templates.  A panic in the Rust code
is modelled as `Except.error` carrying the exact panic message.
-/

namespace Splat

/-- A type expression (`syn::Type`), compared structurally.  `syn` derives
structural equality for `Type`, so we model a type expression by its
canonical written form, with decidable structural equality. -/
abbrev Ty := String

/-- One struct field (`syn::Field`): attributes, visibility, an optional
identifier (present for named fields, absent for tuple-struct fields) and
the declared type. -/
structure Field where
  attrs : List String
  vis : String
  ident : Option String
  ty : Ty
deriving DecidableEq

/-- The field layout of a struct (`syn::Fields`): named fields,
unnamed (tuple) fields, or a unit struct. -/
inductive Fields where
  | named (fields : List Field)
  | unnamed (fields : List Field)
  | unit
deriving DecidableEq

/-- One enum variant (`syn::Variant`): its name and its own fields. -/
structure Variant where
  ident : String
  fields : Fields
deriving DecidableEq

/-- The payload of a declaration (`syn::Data`): a struct, an enum, or a
union.  Only structs are records; the other two arms hit the catch-all
`_ => panic!` of `derive_splat`. -/
inductive Data where
  | dataStruct (fields : Fields)
  | dataEnum (variants : List Variant)
  | dataUnion (fields : List Field)
deriving DecidableEq

/-- The parsed declaration handed to the macro (`syn::DeriveInput`). -/
structure DeriveInput where
  ident : String
  data : Data
deriving DecidableEq

/-- The body of the generated `splat` method, one list entry per field in
emission order.  For `Body.named l`, entry `some f` stands for the tokens
`f: v.clone()` inside `Self { ... }` (entry `none` would interpolate an
absent identifier, as `quote!` does for an `Option`).  For `Body.unnamed l`,
each entry stands for the optional identifier tokens followed by
`v.clone()` inside `Self(...)`; `none` emits just `v.clone()`. -/
inductive Body where
  | named (assigns : List (Option String))
  | unnamed (components : List (Option String))
deriving DecidableEq

/-- The token fragment returned by `derive_splat`: the `impl` block
`impl struct_name { fn method_name(param_name: param_ty) -> Self { body } }`.
The `quote!` templates fix `method_name` to `splat` and `param_name`
to `v`. -/
structure GeneratedImpl where
  struct_name : String
  method_name : String
  param_name : String
  param_ty : Ty
  body : Body
deriving DecidableEq

/-- The loop of `get_shared_type` (src/lib.rs lines 139-145): walk the
remaining fields in order and panic at the first one whose type differs
structurally from the shared candidate. -/
def check_rest (shared : Ty) : List Field → Except String Ty
  | [] => Except.ok shared
  | f :: fs =>
    if f.ty ≠ shared then
      Except.error "Splat can only be derived by structs where each field is the same type"
    else
      check_rest shared fs

/-- `get_shared_type` (src/lib.rs lines 132-147): take the first field's
type as the candidate shared type (panicking if there is no field), then
ensure every other field has that same type. -/
def get_shared_type (fields : List Field) : Except String Ty :=
  match fields with
  | [] => Except.error "Splat cannot be derived by structs with no fields"
  | first :: rest => check_rest first.ty rest

/-- The shape-classification step of `derive_splat` (src/lib.rs lines
91-94): the match on `input.data` that extracts the struct's fields and
panics on any non-struct declaration. -/
def classify_shape (input : DeriveInput) : Except String Fields :=
  match input.data with
  | Data.dataStruct fields => Except.ok fields
  | _ => Except.error "Splat can only be derived by structs"

/-- `derive_splat` (src/lib.rs lines 87-129): classify the declaration,
then per field layout compute the shared type and emit the `impl` block
with one `v.clone()` per field, in declared field order.  The unnamed arm
interpolates each field's (absent) identifier before `v.clone()`, exactly
as the `quote!` template `#(#field_idents v.clone()),*` does. -/
def derive_splat (input : DeriveInput) : Except String GeneratedImpl :=
  match classify_shape input with
  | Except.error e => Except.error e
  | Except.ok fields =>
    let struct_name := input.ident
    match fields with
    | Fields.named fs =>
      match get_shared_type fs with
      | Except.error e => Except.error e
      | Except.ok shared_type =>
        Except.ok
          { struct_name := struct_name
            method_name := "splat"
            param_name := "v"
            param_ty := shared_type
            body := Body.named (fs.map Field.ident) }
    | Fields.unnamed fs =>
      match get_shared_type fs with
      | Except.error e => Except.error e
      | Except.ok shared_type =>
        Except.ok
          { struct_name := struct_name
            method_name := "splat"
            param_name := "v"
            param_ty := shared_type
            body := Body.unnamed (fs.map Field.ident) }
    | Fields.unit => Except.error "Splat cannot be derived by unit structs"

/-- The ordered field list of a classified struct shape; a unit struct has
none.  Used to state field-based conditions uniformly over shapes. -/
def fieldsOf : Fields → List Field
  | Fields.named fs => fs
  | Fields.unnamed fs => fs
  | Fields.unit => []

/-- The scan loop succeeds, returning exactly the candidate, precisely when
every remaining field's declared type equals the candidate. -/
theorem check_rest_ok_iff (t u : Ty) (rest : List Field) :
    check_rest t rest = Except.ok u ↔ (u = t ∧ ∀ g ∈ rest, g.ty = t) := by
  induction rest with
  | nil =>
    simp only [check_rest, List.not_mem_nil, false_implies, implies_true, and_true,
      Except.ok.injEq]
    exact eq_comm
  | cons g gs ih =>
    by_cases hg : g.ty = t
    · simp [check_rest, hg, ih]
    · simp [check_rest, hg]

/-- When the scan fails it fails with the one fixed heterogeneity message. -/
theorem check_rest_error (t : Ty) (rest : List Field) (g : Field)
    (hmem : g ∈ rest) (hne : g.ty ≠ t) :
    check_rest t rest =
      Except.error "Splat can only be derived by structs where each field is the same type" := by
  induction rest with
  | nil => cases hmem
  | cons f fs ih =>
    by_cases hf : f.ty = t
    · rcases List.mem_cons.mp hmem with rfl | hmem2
      · exact absurd hf hne
      · simpa [check_rest, hf] using ih hmem2
    · simp [check_rest, hf]

/-- On a nonempty field list the whole check is the scan from the head. -/
theorem get_shared_type_cons (f : Field) (rest : List Field) :
    get_shared_type (f :: rest) = check_rest f.ty rest := rfl

/-- All fields agree with the head's type iff all pairs of fields agree. -/
theorem all_eq_head_iff_pairwise (f : Field) (rest : List Field) :
    (∀ g ∈ rest, g.ty = f.ty) ↔
      (∀ g1 ∈ f :: rest, ∀ g2 ∈ f :: rest, g1.ty = g2.ty) := by
  constructor
  · intro h g1 h1 g2 h2
    rcases List.mem_cons.mp h1 with h1e | h1m
    · rcases List.mem_cons.mp h2 with h2e | h2m
      · rw [h1e, h2e]
      · rw [h1e]
        exact (h g2 h2m).symm
    · rcases List.mem_cons.mp h2 with h2e | h2m
      · rw [h2e]
        exact h g1 h1m
      · exact (h g1 h1m).trans (h g2 h2m).symm
  · intro h g hg
    exact h g (List.mem_cons_of_mem f hg) f (List.mem_cons_self f rest)

/-- C1: for a named-field struct whose fields all have declared type `T`,
the generator emits an `impl` block with a method named `splat` taking the
single parameter `v : T` and returning `Self { f1: v.clone(), ... }`: one
assignment per field, in declared order, each cloning `v`. -/
theorem C1_named_splat (name : String) (fs : List Field) (T : Ty)
    (hne : fs ≠ [])
    (hty : ∀ f ∈ fs, f.ty = T) :
    derive_splat ⟨name, Data.dataStruct (Fields.named fs)⟩ =
      Except.ok ⟨name, "splat", "v", T, Body.named (fs.map Field.ident)⟩ := by
  cases fs with
  | nil => exact absurd rfl hne
  | cons f rest =>
    have hf : f.ty = T := hty f (List.mem_cons_self f rest)
    have hr : check_rest T rest = Except.ok T :=
      (check_rest_ok_iff T T rest).mpr
        ⟨rfl, fun g hg => hty g (List.mem_cons_of_mem f hg)⟩
    simp [derive_splat, classify_shape, get_shared_type, hr, hf]

/-- Witness for C1 at the doc-comment example `Foo { field_one: u8,
field_two: u8, field_three: u8 }`. -/
theorem C1_named_splat_witness :
    derive_splat ⟨"Foo", Data.dataStruct (Fields.named
        [⟨[], "", some "field_one", "u8"⟩, ⟨[], "", some "field_two", "u8"⟩,
         ⟨[], "", some "field_three", "u8"⟩])⟩ =
      Except.ok ⟨"Foo", "splat", "v", "u8",
        Body.named [some "field_one", some "field_two", some "field_three"]⟩ :=
  C1_named_splat "Foo"
    [⟨[], "", some "field_one", "u8"⟩, ⟨[], "", some "field_two", "u8"⟩,
     ⟨[], "", some "field_three", "u8"⟩] "u8" (by decide) (by decide)

/-- C2: for a tuple struct with `N` fields all of declared type `T` (their
identifiers absent, as `syn` guarantees for unnamed fields), the generator
emits `splat(v: T)` whose body is `Self(v.clone(), ...)`: exactly `N` bare
`v.clone()` components and no field identifiers. -/
theorem C2_unnamed_splat (name : String) (fs : List Field) (T : Ty)
    (hne : fs ≠ [])
    (hty : ∀ f ∈ fs, f.ty = T)
    (hid : ∀ f ∈ fs, f.ident = none) :
    derive_splat ⟨name, Data.dataStruct (Fields.unnamed fs)⟩ =
      Except.ok ⟨name, "splat", "v", T,
        Body.unnamed (List.replicate fs.length none)⟩ := by
  have hmap : fs.map Field.ident = List.replicate fs.length none := by
    rw [List.eq_replicate_iff]
    refine ⟨by simp, ?_⟩
    intro b hb
    rcases List.mem_map.mp hb with ⟨f, hf, hfb⟩
    rw [← hfb]
    exact hid f hf
  cases fs with
  | nil => exact absurd rfl hne
  | cons f rest =>
    have hf : f.ty = T := hty f (List.mem_cons_self f rest)
    have hr : check_rest T rest = Except.ok T :=
      (check_rest_ok_iff T T rest).mpr
        ⟨rfl, fun g hg => hty g (List.mem_cons_of_mem f hg)⟩
    rw [← hmap]
    simp [derive_splat, classify_shape, get_shared_type, hr, hf]

/-- Witness for C2 at the doc-comment example `Foo(i8, i8)`. -/
theorem C2_unnamed_splat_witness :
    derive_splat ⟨"Foo", Data.dataStruct (Fields.unnamed
        [⟨[], "", none, "i8"⟩, ⟨[], "", none, "i8"⟩])⟩ =
      Except.ok ⟨"Foo", "splat", "v", "i8",
        Body.unnamed (List.replicate 2 none)⟩ :=
  C2_unnamed_splat "Foo" [⟨[], "", none, "i8"⟩, ⟨[], "", none, "i8"⟩] "i8"
    (by decide) (by decide) (by decide)

/-- C4: on a nonempty field sequence the homogeneity checker returns `t`
exactly when `t` is the first field's declared type (the candidate) and
every remaining field's declared type structurally equals that candidate. -/
theorem C4_homogeneity_check (first : Field) (rest : List Field) (t : Ty) :
    get_shared_type (first :: rest) = Except.ok t ↔
      (t = first.ty ∧ ∀ g ∈ rest, g.ty = first.ty) := by
  rw [get_shared_type_cons]
  exact check_rest_ok_iff first.ty t rest

/-- C9: a struct with exactly one field always derives successfully, for
either shape, and the parameter type of the generated `splat` is that
single field's declared type, whatever it is. -/
theorem C9_single_field (name : String) (f : Field) :
    derive_splat ⟨name, Data.dataStruct (Fields.named [f])⟩ =
      Except.ok ⟨name, "splat", "v", f.ty, Body.named [f.ident]⟩ ∧
    derive_splat ⟨name, Data.dataStruct (Fields.unnamed [f])⟩ =
      Except.ok ⟨name, "splat", "v", f.ty, Body.unnamed [f.ident]⟩ :=
  ⟨rfl, rfl⟩

/-- Generation on a named struct succeeds iff the homogeneity check does. -/
theorem derive_named_ok_iff (name : String) (fs : List Field) :
    (∃ frag, derive_splat ⟨name, Data.dataStruct (Fields.named fs)⟩ =
        Except.ok frag) ↔
      (∃ t, get_shared_type fs = Except.ok t) := by
  cases hg : get_shared_type fs with
  | error e => simp [derive_splat, classify_shape, hg]
  | ok t => simp [derive_splat, classify_shape, hg]

/-- Generation on a tuple struct succeeds iff the homogeneity check does. -/
theorem derive_unnamed_ok_iff (name : String) (fs : List Field) :
    (∃ frag, derive_splat ⟨name, Data.dataStruct (Fields.unnamed fs)⟩ =
        Except.ok frag) ↔
      (∃ t, get_shared_type fs = Except.ok t) := by
  cases hg : get_shared_type fs with
  | error e => simp [derive_splat, classify_shape, hg]
  | ok t => simp [derive_splat, classify_shape, hg]

/-- The homogeneity check succeeds iff the field list is nonempty and all
pairs of fields have structurally equal declared types. -/
theorem get_shared_type_ok_iff (fs : List Field) :
    (∃ t, get_shared_type fs = Except.ok t) ↔
      (fs ≠ [] ∧ ∀ g1 ∈ fs, ∀ g2 ∈ fs, g1.ty = g2.ty) := by
  cases fs with
  | nil => simp [get_shared_type]
  | cons f rest =>
    rw [← all_eq_head_iff_pairwise f rest]
    constructor
    · rintro ⟨t, ht⟩
      rw [get_shared_type_cons] at ht
      exact ⟨List.cons_ne_nil f rest, ((check_rest_ok_iff f.ty t rest).mp ht).2⟩
    · rintro ⟨-, hall⟩
      exact ⟨f.ty, (get_shared_type_cons f rest).trans
        ((check_rest_ok_iff f.ty f.ty rest).mpr ⟨rfl, hall⟩)⟩

/-- C3: the generator succeeds (emits a fragment) exactly on declarations
that classify as a struct whose field list is nonempty and has pairwise
structurally equal declared types; on every other input — non-struct
declaration, fieldless struct (unit or empty braces/parens), or
heterogeneous field types — it aborts. -/
theorem C3_success_iff (input : DeriveInput) :
    (∃ frag, derive_splat input = Except.ok frag) ↔
      (∃ fields, classify_shape input = Except.ok fields ∧
        fieldsOf fields ≠ [] ∧
        ∀ g1 ∈ fieldsOf fields, ∀ g2 ∈ fieldsOf fields, g1.ty = g2.ty) := by
  obtain ⟨name, data⟩ := input
  cases data with
  | dataEnum vs => simp [derive_splat, classify_shape]
  | dataUnion fs => simp [derive_splat, classify_shape]
  | dataStruct fields =>
    have hcls : classify_shape ⟨name, Data.dataStruct fields⟩ =
        Except.ok fields := rfl
    cases fields with
    | unit =>
      simp [derive_splat, classify_shape, fieldsOf]
    | named fs =>
      rw [derive_named_ok_iff, get_shared_type_ok_iff]
      constructor
      · rintro ⟨hne, hall⟩
        exact ⟨Fields.named fs, hcls, hne, hall⟩
      · rintro ⟨flds, hflds, hne, hall⟩
        rw [hcls] at hflds
        cases Except.ok.inj hflds
        exact ⟨hne, hall⟩
    | unnamed fs =>
      rw [derive_unnamed_ok_iff, get_shared_type_ok_iff]
      constructor
      · rintro ⟨hne, hall⟩
        exact ⟨Fields.unnamed fs, hcls, hne, hall⟩
      · rintro ⟨flds, hflds, hne, hall⟩
        rw [hcls] at hflds
        cases Except.ok.inj hflds
        exact ⟨hne, hall⟩

/-- C5: whenever generation succeeds, the generated body lists one entry
per declared field and the `i`-th entry carries the `i`-th field's
identifier (named path) resp. the `i`-th field's absent-identifier slot
followed by `v.clone()` (positional path): declared order is preserved
entry by entry. -/
theorem C5_order_preservation (name : String) (fs : List Field)
    (frag : GeneratedImpl) :
    (derive_splat ⟨name, Data.dataStruct (Fields.named fs)⟩ =
        Except.ok frag →
      ∃ assigns, frag.body = Body.named assigns ∧
        assigns.length = fs.length ∧
        ∀ i : Nat, assigns[i]? = (fs[i]?).map Field.ident) ∧
    (derive_splat ⟨name, Data.dataStruct (Fields.unnamed fs)⟩ =
        Except.ok frag →
      ∃ comps, frag.body = Body.unnamed comps ∧
        comps.length = fs.length ∧
        ∀ i : Nat, comps[i]? = (fs[i]?).map Field.ident) := by
  constructor
  · intro h
    cases hg : get_shared_type fs with
    | error e => simp [derive_splat, classify_shape, hg] at h
    | ok t =>
      simp only [derive_splat, classify_shape, hg, Except.ok.injEq] at h
      refine ⟨fs.map Field.ident, ?_, by simp, fun i => ?_⟩
      · rw [← h]
      · exact List.getElem?_map Field.ident fs i
  · intro h
    cases hg : get_shared_type fs with
    | error e => simp [derive_splat, classify_shape, hg] at h
    | ok t =>
      simp only [derive_splat, classify_shape, hg, Except.ok.injEq] at h
      refine ⟨fs.map Field.ident, ?_, by simp, fun i => ?_⟩
      · rw [← h]
      · exact List.getElem?_map Field.ident fs i

/-- Witness for C5 at the named struct `P { x: i32, y: i32 }`, whose
generated fragment lists `x` then `y`. -/
theorem C5_order_preservation_witness :
    ∃ assigns,
      (GeneratedImpl.mk "P" "splat" "v" "i32"
          (Body.named [some "x", some "y"])).body = Body.named assigns ∧
      assigns.length =
        ([⟨[], "", some "x", "i32"⟩, ⟨[], "", some "y", "i32"⟩] :
          List Field).length ∧
      ∀ i : Nat, assigns[i]? =
        (([⟨[], "", some "x", "i32"⟩, ⟨[], "", some "y", "i32"⟩] :
          List Field)[i]?).map Field.ident :=
  (C5_order_preservation "P"
    [⟨[], "", some "x", "i32"⟩, ⟨[], "", some "y", "i32"⟩]
    (GeneratedImpl.mk "P" "splat" "v" "i32"
      (Body.named [some "x", some "y"]))).1 rfl

/-- Counterexample for C6: the offending field sits at position 1 in the
first input and at position 2 in the second, yet both abort with the same
fixed diagnostic, so the diagnostic cannot identify the position of the
divergent field. -/
theorem C6_counterexample :
    get_shared_type
        [⟨[], "", some "a", "i32"⟩, ⟨[], "", some "b", "String"⟩,
         ⟨[], "", some "c", "i32"⟩] =
      Except.error
        "Splat can only be derived by structs where each field is the same type" ∧
    get_shared_type
        [⟨[], "", some "a", "i32"⟩, ⟨[], "", some "b", "i32"⟩,
         ⟨[], "", some "c", "String"⟩] =
      Except.error
        "Splat can only be derived by structs where each field is the same type" := by
  constructor <;> rfl

/-- C6 amended: when some later field's declared type differs from the
candidate, the checker aborts with the fixed diagnostic "Splat can only be
derived by structs where each field is the same type" — it says all fields
must share the same type but does not identify the offending field's
position. -/
theorem C6_amended_fixed_message (first : Field) (rest : List Field)
    (h : ∃ g ∈ rest, g.ty ≠ first.ty) :
    get_shared_type (first :: rest) =
      Except.error
        "Splat can only be derived by structs where each field is the same type" := by
  rcases h with ⟨g, hmem, hne⟩
  rw [get_shared_type_cons]
  exact check_rest_error first.ty rest g hmem hne

/-- Witness for the amended C6 at `Mixed { a: i32, b: String }`. -/
theorem C6_amended_fixed_message_witness :
    get_shared_type [⟨[], "", some "a", "i32"⟩, ⟨[], "", some "b", "String"⟩] =
      Except.error
        "Splat can only be derived by structs where each field is the same type" :=
  C6_amended_fixed_message ⟨[], "", some "a", "i32"⟩
    [⟨[], "", some "b", "String"⟩] ⟨⟨[], "", some "b", "String"⟩, by decide⟩

/-- C7: every non-struct declaration — an enum with any variants whatsoever
(even ones with heterogeneous fields) or a union with any fields — aborts
with the shape diagnostic "Splat can only be derived by structs".  Because
this holds for arbitrary variant and field contents and the diagnostic is
never the homogeneity one, no field inspection takes place. -/
theorem C7_non_record_shape_error (name : String) (variants : List Variant)
    (ufields : List Field) :
    derive_splat ⟨name, Data.dataEnum variants⟩ =
      Except.error "Splat can only be derived by structs" ∧
    derive_splat ⟨name, Data.dataUnion ufields⟩ =
      Except.error "Splat can only be derived by structs" :=
  ⟨rfl, rfl⟩

/-- C8: the generator is deterministic — two runs of shape classification
on the same declaration yield the same shape, and two runs of the whole
generator on the same declaration yield the same outcome (same fragment or
same abort). -/
theorem C8_deterministic (input : DeriveInput) (s1 s2 : Except String Fields)
    (o1 o2 : Except String GeneratedImpl)
    (hs1 : classify_shape input = s1) (hs2 : classify_shape input = s2)
    (h1 : derive_splat input = o1) (h2 : derive_splat input = o2) :
    s1 = s2 ∧ o1 = o2 :=
  ⟨hs1.symm.trans hs2, h1.symm.trans h2⟩

/-- Witness for C8 at the enum input `Shape`. -/
theorem C8_deterministic_witness :
    (Except.error "Splat can only be derived by structs" :
        Except String Fields) =
      Except.error "Splat can only be derived by structs" ∧
    (Except.error "Splat can only be derived by structs" :
        Except String GeneratedImpl) =
      Except.error "Splat can only be derived by structs" :=
  C8_deterministic ⟨"Shape", Data.dataEnum [⟨"Circle", Fields.unit⟩]⟩
    _ _ _ _ rfl rfl rfl rfl

/-- The scan's outcome depends only on the declared types of the fields. -/
theorem check_rest_ty_congr (t : Ty) (l1 l2 : List Field)
    (h : l1.map Field.ty = l2.map Field.ty) :
    check_rest t l1 = check_rest t l2 := by
  induction l1 generalizing l2 with
  | nil =>
    cases l2 with
    | nil => rfl
    | cons g gs => simp at h
  | cons f fs ih =>
    cases l2 with
    | nil => simp at h
    | cons g gs =>
      simp only [List.map_cons, List.cons.injEq] at h
      obtain ⟨hty, htys⟩ := h
      simp [check_rest, hty, ih gs htys]

/-- C10: the homogeneity checker's outcome (shared type or abort) depends
only on the sequence of declared field types — field identifiers,
visibility and attributes play no role. -/
theorem C10_type_only (fs1 fs2 : List Field)
    (h : fs1.map Field.ty = fs2.map Field.ty) :
    get_shared_type fs1 = get_shared_type fs2 := by
  cases fs1 with
  | nil =>
    cases fs2 with
    | nil => rfl
    | cons g gs => simp at h
  | cons f fs =>
    cases fs2 with
    | nil => simp at h
    | cons g gs =>
      simp only [List.map_cons, List.cons.injEq] at h
      obtain ⟨hty, htys⟩ := h
      rw [get_shared_type_cons, get_shared_type_cons, hty]
      exact check_rest_ty_congr g.ty fs gs htys

/-- Witness for C10: two field lists differing in identifiers, visibility
and attributes but with the same declared types check identically. -/
theorem C10_type_only_witness :
    get_shared_type
        [⟨["serde"], "pub", some "x", "u16"⟩, ⟨[], "", some "y", "u16"⟩] =
      get_shared_type [⟨[], "", none, "u16"⟩, ⟨["repr"], "pub", none, "u16"⟩] :=
  C10_type_only
    [⟨["serde"], "pub", some "x", "u16"⟩, ⟨[], "", some "y", "u16"⟩]
    [⟨[], "", none, "u16"⟩, ⟨["repr"], "pub", none, "u16"⟩] (by decide)

end Splat
